import Mathlib

/-!
# Verification of the coin-refill settlement service

A shallow embedding of `src/index.ts`: the pricing table, the quote
endpoint, the payment verifier `verifyAndBroadcastPayment`, and the
`/refill` endpoint.  JSON responses are modelled by an explicit `Json`
tree mirroring the object literals in the source; the two outbound
ledger effects (deserialisation and broadcast) are passed in as
function-valued oracles, and the transactions actually submitted for
broadcast are collected in a trace so that "no broadcast happened"
is expressible.  The floating-point expression
`Math.ceil(amount / rate)` is embedded exactly: each rate literal is
represented by the mathematical value of its IEEE-754 double, and the
division is correctly rounded (round-to-nearest, ties-to-even) before
the ceiling is taken.
-/

namespace CoinRefill

/-- JSON values, mirroring the object literals in the source. -/
inductive Json where
  | jnull : Json
  | jbool : Bool → Json
  | jnum : ℚ → Json
  | jstr : String → Json
  | jarr : List Json → Json
  | jobj : List (String × Json) → Json

/-- Field lookup in a JSON object (`none` on non-objects and absent keys). -/
def Json.field (j : Json) (k : String) : Option Json :=
  match j with
  | .jobj fields => fields.lookup k
  | _ => none

/-- One entry of `SUPPORTED_TOKENS`.  The source stores `rate` as a JS
number (an IEEE-754 double); here it is carried exactly as the dyadic
rational `rateM / 2 ^ rateE`, the precise value of that double. -/
structure TokenInfo where
  name : String
  rateM : ℕ
  rateE : ℕ
  minAmount : ℕ
  maxAmount : ℕ
deriving DecidableEq

/-- The exact rational value of a token's (double) rate, used where the
source serialises the rate itself. -/
def TokenInfo.rateQ (t : TokenInfo) : ℚ := (t.rateM : ℚ) / 2 ^ t.rateE

/-- The `SUPPORTED_TOKENS` table.  The doubles `0.95`, `0.000005` and
`0.5` have the exact values `4278419646001971 / 2^52`,
`5902958103587057 / 2^70` and `1 / 2^1` respectively. -/
def SUPPORTED_TOKENS : List (String × TokenInfo) :=
  [("STX", ⟨"Stacks", 4278419646001971, 52, 1000000, 100000000⟩),
   ("SBTC", ⟨"sBTC", 5902958103587057, 70, 1000, 10000000⟩),
   ("USDC", ⟨"USDC", 1, 1, 100000, 50000000⟩)]

/-- `Object.keys(SUPPORTED_TOKENS)` (insertion order). -/
def supportedSymbols : List String := SUPPORTED_TOKENS.map (·.1)

/-- Floor base-2 logarithm, computed with explicit fuel so that it
reduces inside the kernel (the library `Nat.log2` is well-founded
recursion, which does not). -/
def log2fuel : ℕ → ℕ → ℕ
  | 0, _ => 0
  | fuel + 1, n => if 2 <= n then log2fuel fuel (n / 2) + 1 else 0

/-- `floorLog2 n = ⌊log₂ n⌋` (and `0` at `0`). -/
def floorLog2 (n : ℕ) : ℕ := log2fuel n n

/-- Round the rational `x / q` to the nearest integer, ties to even —
the IEEE-754 default rounding applied at integer granularity. -/
def roundHalfEven (x q : ℕ) : ℕ :=
  let n := x / q
  let r := x % q
  if 2 * r < q then n
  else if q < 2 * r then n + 1
  else if n % 2 = 0 then n else n + 1

/-- Exact evaluation of the source expression `Math.ceil(amount / rate)`
where `rate` is the IEEE-754 double `rateM / 2 ^ rateE` and
`amount ≤ 2^53` (hence itself exact as a double).  The division is
correctly rounded to the 53-bit grid of the quotient's binade
(granularity `2 ^ (e - 52)` for a quotient in `[2^e, 2^(e+1))`,
faithful for quotients `≥ 1`), then the exact ceiling of the resulting
double is returned. -/
def jsMathCeilDiv (amount rateM rateE : ℕ) : ℕ :=
  let p := amount * 2 ^ rateE
  let e := floorLog2 (p / rateM)
  let s := 52 - e
  let m := roundHalfEven (p * 2 ^ s) rateM
  (m + (2 ^ s - 1)) / 2 ^ s

/-- The deserialised payload of a ledger transaction, as consumed by the
source: its `payloadType` tag, the optional parsed recipient address
object, and the transferred `amount`. -/
structure TxPayload where
  payloadType : ℕ
  recipientAddress : Option String
  amount : ℕ
deriving DecidableEq

/-- A deserialised ledger transaction. -/
structure StacksTx where
  payload : TxPayload
deriving DecidableEq

/-- Outcome of `broadcastTransaction`: either an object with an `error`
field or one with a `txid`. -/
inductive BroadcastResult where
  | err : String → BroadcastResult
  | ok : String → BroadcastResult
deriving DecidableEq

/-- The return type of `verifyAndBroadcastPayment`:
`{ success: boolean; txid?: string; error?: string; amount?: number }`. -/
structure PaymentResult where
  success : Bool
  txid : Option String
  error : Option String
  amount : Option ℕ
deriving DecidableEq

/-- Result of a verifier run together with the trace of transactions it
actually submitted to the ledger's broadcast endpoint. -/
structure VerifyOutput where
  result : PaymentResult
  broadcasts : List StacksTx
deriving DecidableEq

/-- `verifyAndBroadcastPayment(rawTxHex, expectedRecipient, minAmount)`.
`deserialize` models `deserializeTransaction` (throwing is the `.error`
case, caught by the source's `try/catch`); `broadcast` models
`broadcastTransaction`.  The checks run in source order: payload type,
recipient parseability, amount minimum, then broadcast. -/
def verifyAndBroadcastPayment (deserialize : String → Except String StacksTx)
    (broadcast : StacksTx → BroadcastResult)
    (rawTxHex : String) (expectedRecipient : String) (minAmount : ℕ) :
    VerifyOutput :=
  match deserialize rawTxHex with
  | .error msg =>
      ⟨⟨false, none, some ("Payment verification failed: " ++ msg), none⟩, []⟩
  | .ok tx =>
      if tx.payload.payloadType ≠ 0 then
        ⟨⟨false, none, some "Transaction is not a STX transfer", none⟩, []⟩
      else
        match tx.payload.recipientAddress with
        | none => ⟨⟨false, none, some "Could not parse recipient address", none⟩, []⟩
        | some _ =>
            let amount := tx.payload.amount
            if amount < minAmount then
              ⟨⟨false, none,
                some s!"Insufficient payment: got {amount}, need {minAmount}", none⟩, []⟩
            else
              match broadcast tx with
              | .err e => ⟨⟨false, none, some ("Broadcast failed: " ++ e), none⟩, [tx]⟩
              | .ok txid => ⟨⟨true, some txid, none, some amount⟩, [tx]⟩

/-- The worker environment: the source's `Env` interface has the single
binding `PAYMENT_ADDRESS` (in particular, no funding credential). -/
structure Env where
  PAYMENT_ADDRESS : String

/-- The parsed JSON body of a `/refill` request (`.catch(() => ({}))`
yields all-absent fields).  `amount` models the result of `parseInt` on
the supplied value when it is numeric. -/
structure RefillBody where
  token : Option String
  amount : Option ℕ
  recipient : Option String

/-- JS truthiness of an optional string (absent, `null` and `""` are
falsy). -/
def jsTruthyStr : Option String → Bool
  | none => false
  | some s => !s.isEmpty

/-- `String.prototype.toUpperCase()`, on the ASCII range exercised by
the token symbols. -/
def jsToUpperCase (s : String) : String := ⟨s.data.map Char.toUpper⟩

/-- `GET /quote`: `tokenParam`/`amountParam` are the query parameters
(with the source's defaults `"STX"` and `1000000`).  Returns the HTTP
status and the JSON body. -/
def quoteHandler (tokenParam : Option String) (amountParam : Option ℕ) :
    ℕ × Json :=
  let token := jsToUpperCase (tokenParam.getD "STX")
  let amount := amountParam.getD 1000000
  match SUPPORTED_TOKENS.lookup token with
  | none =>
      (400, .jobj [("error", .jstr "Unsupported token"),
                   ("supported", .jarr (supportedSymbols.map Json.jstr))])
  | some info =>
      if amount < info.minAmount then
        (400, .jobj [("error", .jstr s!"Minimum amount is {info.minAmount}")])
      else if info.maxAmount < amount then
        (400, .jobj [("error", .jstr s!"Maximum amount is {info.maxAmount}")])
      else
        let stxCost := jsMathCeilDiv amount info.rateM info.rateE
        (200, .jobj [("token", .jstr token),
                     ("tokenName", .jstr info.name),
                     ("requestedAmount", .jnum amount),
                     ("stxCost", .jnum stxCost),
                     ("rate", .jnum info.rateQ),
                     ("feePercent", .jnum (if token = "STX" then 5 else 2))])

/-- `POST /refill`.  `paymentHeader` is the `X-Payment` header;
`nonce`, `expiresAt` and `refillId` stand for the values produced by
`crypto.randomUUID()` / `Date`.  Returns the status, the JSON body and
the trace of transactions submitted for broadcast while handling the
request. -/
def refillHandler (env : Env) (paymentHeader : Option String) (body : RefillBody)
    (deserialize : String → Except String StacksTx)
    (broadcast : StacksTx → BroadcastResult)
    (nonce expiresAt refillId : String) : ℕ × Json × List StacksTx :=
  let token := jsToUpperCase (body.token.getD "STX")
  let amount := body.amount.getD 1000000
  let recipient := body.recipient
  if !jsTruthyStr recipient then
    (400, .jobj [("error", .jstr "recipient address required")], [])
  else
    let r := recipient.getD ""
    match SUPPORTED_TOKENS.lookup token with
    | none =>
        (400, .jobj [("error", .jstr "Unsupported token"),
                     ("supported", .jarr (supportedSymbols.map Json.jstr))], [])
    | some info =>
        if amount < info.minAmount || info.maxAmount < amount then
          (400, .jobj [("error",
            .jstr s!"Amount must be between {info.minAmount} and {info.maxAmount}")], [])
        else
          let stxCost := jsMathCeilDiv amount info.rateM info.rateE
          match paymentHeader with
          | none =>
              (402, .jobj [("maxAmountRequired", .jstr (toString stxCost)),
                           ("resource", .jstr "/refill"),
                           ("payTo", .jstr env.PAYMENT_ADDRESS),
                           ("network", .jstr "mainnet"),
                           ("nonce", .jstr nonce),
                           ("expiresAt", .jstr expiresAt),
                           ("tokenType", .jstr "STX"),
                           ("quote", .jobj [("token", .jstr token),
                                            ("requestedAmount", .jnum amount),
                                            ("stxCost", .jnum stxCost),
                                            ("recipient", .jstr r)])], [])
          | some rawTx =>
              let vr := verifyAndBroadcastPayment deserialize broadcast rawTx
                env.PAYMENT_ADDRESS stxCost
              if !vr.result.success then
                (402, .jobj [("error", .jstr "Payment verification failed"),
                             ("details", (vr.result.error.map Json.jstr).getD .jnull)],
                 vr.broadcasts)
              else
                (200, .jobj [("success", .jbool true),
                             ("refillId", .jstr refillId),
                             ("status", .jstr "queued"),
                             ("payment", .jobj
                               [("txid", (vr.result.txid.map Json.jstr).getD .jnull),
                                ("amount",
                                  (vr.result.amount.map (fun n => Json.jnum n)).getD .jnull),
                                ("verified", .jbool true)]),
                             ("details", .jobj
                               [("token", .jstr token),
                                ("amount", .jnum amount),
                                ("recipient", .jstr r),
                                ("estimatedDelivery", .jstr "~10 minutes")]),
                             ("message", .jstr s!"Refill of {amount} {token} queued for {r}")],
                 vr.broadcasts)

/-- The spec's exact rate of each supported asset as a rational
`num / den` (`0.95 = 19/20`, `0.000005 = 1/200000`, `0.5 = 1/2`). -/
def specRate : String → ℕ × ℕ
  | "STX" => (19, 20)
  | "SBTC" => (1, 200000)
  | "USDC" => (1, 2)
  | _ => (1, 1)

/-- `ceil(requestedAmount / rate)` with the exact rational rate — the
spec's integer-exact required payment. -/
def specRequiredPayment (sym : String) (a : ℕ) : ℕ :=
  ((a * (specRate sym).2 + ((specRate sym).1 - 1)) / (specRate sym).1)

/-- Modelled from the spec: the ledger's address-format predicate for
the target network (`"mainnet"`).  The predicate itself lives in the
ledger client, outside `src/`; per the spec a mainnet principal address
is a c32check string beginning with the version prefix `SP` or `SM`,
over the c32 alphabet. -/
def isValidStacksAddress (s : String) : Bool :=
  (s.startsWith "SP" || s.startsWith "SM") &&
    decide (3 ≤ s.length) &&
    s.data.all (fun c => "0123456789ABCDEFGHJKMNPQRSTVWXYZ".contains c)

/-! ## Correct rounding facts -/

/-- `roundHalfEven x q` is within half a unit of `x / q`:
`|roundHalfEven x q - x / q| ≤ 1/2`, stated multiplicatively. -/
lemma roundHalfEven_bounds (x q : ℕ) (hq : 0 < q) :
    2 * x ≤ 2 * (roundHalfEven x q) * q + q ∧
      2 * (roundHalfEven x q) * q ≤ 2 * x + q := by
  have hdm : q * (x / q) + x % q = x := Nat.div_add_mod x q
  have hmod : x % q < q := Nat.mod_lt _ hq
  unfold roundHalfEven
  dsimp only
  generalize x / q = D at *
  generalize x % q = R at *
  split_ifs with h1 h2 h3 <;>
    constructor <;> nlinarith [hdm, hmod]

/-- Rounding by `q = 1` is the identity. -/
lemma roundHalfEven_one (x : ℕ) : roundHalfEven x 1 = x := by
  simp [roundHalfEven, Nat.mod_one]

/-- With enough fuel, `log2fuel` is the mathematical floor logarithm. -/
lemma log2fuel_eq_log (fuel n : ℕ) (h : n ≤ fuel) :
    log2fuel fuel n = Nat.log 2 n := by
  induction fuel generalizing n with
  | zero =>
      have hn : n = 0 := by omega
      subst hn
      simp [log2fuel]
  | succ f ih =>
      rw [log2fuel]
      by_cases h2 : 2 ≤ n
      · rw [if_pos h2, ih (n / 2) (by omega)]
        conv_rhs => rw [Nat.log]
        rw [dif_pos ⟨h2, by norm_num⟩]
      · rw [if_neg h2]
        conv_rhs => rw [Nat.log]
        rw [dif_neg (fun hc => h2 hc.1)]

/-- `floorLog2` agrees with the library floor logarithm. -/
lemma floorLog2_eq_log (n : ℕ) : floorLog2 n = Nat.log 2 n :=
  log2fuel_eq_log n n le_rfl

/-- If `m` lies in `((N-1)·2^s, N·2^s]` then the ceiling step of
`jsMathCeilDiv` returns `N`. -/
lemma ceil_step_eq {m s N : ℕ} (hN : 1 ≤ N)
    (hlo : (N - 1) * 2 ^ s < m) (hhi : m ≤ N * 2 ^ s) :
    (m + (2 ^ s - 1)) / 2 ^ s = N := by
  have hp : (0:ℕ) < 2 ^ s := pow_pos (by norm_num) s
  have hsub : (N - 1) * 2 ^ s = N * 2 ^ s - 2 ^ s := by
    rw [Nat.sub_mul, one_mul]
  have hge : 2 ^ s ≤ N * 2 ^ s := Nat.le_mul_of_pos_left _ hN
  have hN1 : (N + 1) * 2 ^ s = N * 2 ^ s + 2 ^ s := by ring
  rw [hsub] at hlo
  have key : N * 2 ^ s ≤ m + (2 ^ s - 1) ∧ m + (2 ^ s - 1) < (N + 1) * 2 ^ s := by
    rw [hN1]
    generalize N * 2 ^ s = B at hlo hhi hge ⊢
    generalize (2:ℕ) ^ s = P at hp hlo hge ⊢
    omega
  exact Nat.div_eq_of_lt_le key.1 key.2

/-- The quote computation for USDC (`rate = 0.5`, exactly representable):
the float ceiling equals `2 * amount` for every amount. -/
lemma usdc_cost_exact (a : ℕ) : jsMathCeilDiv a 1 1 = 2 * a := by
  show (roundHalfEven (a * 2 ^ 1 * 2 ^ (52 - floorLog2 (a * 2 ^ 1 / 1))) 1 +
      (2 ^ (52 - floorLog2 (a * 2 ^ 1 / 1)) - 1)) / 2 ^ (52 - floorLog2 (a * 2 ^ 1 / 1)) = 2 * a
  set s := 52 - floorLog2 (a * 2 ^ 1 / 1) with hs
  have hp : (0:ℕ) < 2 ^ s := pow_pos (by norm_num) s
  rw [roundHalfEven_one]
  rcases Nat.eq_zero_or_pos a with rfl | ha
  · simp [Nat.div_eq_of_lt (by omega : 2 ^ s - 1 < 2 ^ s)]
  · have h2a : 1 ≤ 2 * a := by omega
    have hx : a * 2 ^ 1 * 2 ^ s = 2 * a * 2 ^ s := by ring
    rw [hx]
    have hge : 2 ^ s ≤ 2 * a * 2 ^ s := Nat.le_mul_of_pos_left _ h2a
    have hlo : (2 * a - 1) * 2 ^ s < 2 * a * 2 ^ s := by
      rw [Nat.sub_mul, one_mul]
      exact Nat.sub_lt (lt_of_lt_of_le hp hge) hp
    exact ceil_step_eq h2a hlo le_rfl

/-- The quote computation for SBTC (`rate = 0.000005`, whose double is
`5902958103587057 / 2^70`, slightly above `1/200000`): for every amount
up to the table's maximum the float ceiling equals the exact
`200000 * amount`. -/
lemma sbtc_cost_exact (a : ℕ) (ha1 : 1 ≤ a) (ha : a ≤ 10000000) :
    jsMathCeilDiv a 5902958103587057 70 = 200000 * a := by
  show (roundHalfEven (a * 2 ^ 70 * 2 ^ (52 - floorLog2 (a * 2 ^ 70 / 5902958103587057)))
        5902958103587057 +
      (2 ^ (52 - floorLog2 (a * 2 ^ 70 / 5902958103587057)) - 1)) /
      2 ^ (52 - floorLog2 (a * 2 ^ 70 / 5902958103587057)) = 200000 * a
  set s := 52 - floorLog2 (a * 2 ^ 70 / 5902958103587057) with hs
  have hM : (0:ℕ) < 5902958103587057 := by norm_num
  have hP1 : (1:ℕ) ≤ 2 ^ s := Nat.one_le_two_pow
  obtain ⟨hrL, hrU⟩ := roundHalfEven_bounds (a * 2 ^ 70 * 2 ^ s) 5902958103587057 hM
  have hkey : 193152 * (a * 2 ^ s) ≤ 5902958103587056 * 2 ^ s := by
    have h1 : 193152 * a ≤ 5902958103587056 := by omega
    calc 193152 * (a * 2 ^ s) = (193152 * a) * 2 ^ s := by ring
    _ ≤ 5902958103587056 * 2 ^ s := Nat.mul_le_mul_right _ h1
  have hA : 2 ^ s ≤ a * 2 ^ s := Nat.le_mul_of_pos_left _ ha1
  have hXeq : a * 2 ^ 70 * 2 ^ s = (a * 2 ^ s) * 2 ^ 70 := by ring
  rw [hXeq] at hrL hrU
  rw [hXeq]
  have hN1 : (1:ℕ) ≤ 200000 * a := by omega
  have hBA : 200000 * a * 2 ^ s = 200000 * (a * 2 ^ s) := by ring
  have hsubB : (200000 * a - 1) * 2 ^ s = 200000 * (a * 2 ^ s) - 2 ^ s := by
    rw [Nat.sub_mul, one_mul, hBA]
  refine ceil_step_eq hN1 ?_ ?_
  · rw [hsubB]
    generalize roundHalfEven (a * 2 ^ s * 2 ^ 70) 5902958103587057 = m at hrL hrU ⊢
    generalize a * 2 ^ s = A at hrL hrU hkey hA ⊢
    generalize (2:ℕ) ^ s = P at hkey hA hP1 ⊢
    omega
  · rw [hBA]
    generalize roundHalfEven (a * 2 ^ s * 2 ^ 70) 5902958103587057 = m at hrL hrU ⊢
    generalize a * 2 ^ s = A at hrL hrU ⊢
    omega

/-- The quote computation for STX (`rate = 0.95`, whose double is
`4278419646001971 / 2^52`, slightly below `19/20`): for every amount up
to the table's maximum the float ceiling equals the exact
`⌈20 * amount / 19⌉ = (20 * amount + 18) / 19`. -/
lemma stx_cost_exact (a : ℕ) (ha1 : 1 ≤ a) (ha : a ≤ 100000000) :
    jsMathCeilDiv a 4278419646001971 52 = (a * 20 + 18) / 19 := by
  show (roundHalfEven (a * 2 ^ 52 * 2 ^ (52 - floorLog2 (a * 2 ^ 52 / 4278419646001971)))
        4278419646001971 +
      (2 ^ (52 - floorLog2 (a * 2 ^ 52 / 4278419646001971)) - 1)) /
      2 ^ (52 - floorLog2 (a * 2 ^ 52 / 4278419646001971)) = (a * 20 + 18) / 19
  have hM : (0:ℕ) < 4278419646001971 := by norm_num
  -- facts about the exact ceiling N
  set N := (a * 20 + 18) / 19 with hNdef
  have hNdm : 19 * N + (a * 20 + 18) % 19 = a * 20 + 18 := Nat.div_add_mod _ 19
  have hNmod : (a * 20 + 18) % 19 < 19 := Nat.mod_lt _ (by norm_num)
  have hN20 : 20 * a ≤ 19 * N := by omega
  have hN19 : 19 * N ≤ 20 * a + 18 := by omega
  have hN1 : 1 ≤ N := by omega
  -- the binade of the quotient
  set e := floorLog2 (a * 2 ^ 52 / 4278419646001971) with he
  have hplt : a * 2 ^ 52 < 2 ^ (e + 1) * 4278419646001971 := by
    have h1 : a * 2 ^ 52 / 4278419646001971 < 2 ^ (e + 1) := by
      rw [he, floorLog2_eq_log]
      exact Nat.lt_pow_succ_log_self (by norm_num) _
    exact (Nat.div_lt_iff_lt_mul hM).mp h1
  have hpos : 1 ≤ a * 2 ^ 52 / 4278419646001971 := by
    refine (Nat.one_le_div_iff hM).mpr ?_
    calc (4278419646001971:ℕ) ≤ 1 * 2 ^ 52 := by norm_num
    _ ≤ a * 2 ^ 52 := Nat.mul_le_mul_right _ ha1
  have he48 : e ≤ 48 := by
    by_contra hcon
    push_neg at hcon
    have h1 : (2:ℕ) ^ e ≤ a * 2 ^ 52 / 4278419646001971 := by
      rw [he, floorLog2_eq_log]
      exact Nat.pow_log_le_self 2 (by omega)
    have h2 : 2 ^ e * 4278419646001971 ≤ a * 2 ^ 52 :=
      (Nat.le_div_iff_mul_le hM).mp h1
    have h3 : (2:ℕ) ^ 49 * 4278419646001971 ≤ 2 ^ e * 4278419646001971 :=
      Nat.mul_le_mul_right _ (Nat.pow_le_pow_right (by norm_num) (by omega))
    have h4 : a * 2 ^ 52 ≤ 100000000 * 2 ^ 52 := Nat.mul_le_mul_right _ ha
    have h6 := le_trans h3 (le_trans h2 h4)
    norm_num at h6
  set s := 52 - e with hs
  have hse : s + e = 52 := by omega
  have hP16 : (16:ℕ) ≤ 2 ^ s := by
    calc (16:ℕ) = 2 ^ 4 := by norm_num
    _ ≤ 2 ^ s := Nat.pow_le_pow_right (by norm_num) (by omega)
  have hsplit : a * 2 ^ s * 2 ^ e = a * 2 ^ 52 := by
    rw [mul_assoc, ← pow_add, hse]
  have hkey : 8 * (a * 2 ^ s) < 16 * 4278419646001971 := by
    have h1 : 8 * (a * 2 ^ s) * 2 ^ e < 16 * 4278419646001971 * 2 ^ e := by
      calc 8 * (a * 2 ^ s) * 2 ^ e = 8 * (a * 2 ^ s * 2 ^ e) := by ring
      _ = 8 * (a * 2 ^ 52) := by rw [hsplit]
      _ < 8 * (2 ^ (e + 1) * 4278419646001971) :=
          mul_lt_mul_of_pos_left hplt (by norm_num)
      _ = 16 * 4278419646001971 * 2 ^ e := by rw [pow_succ]; ring
    exact Nat.lt_of_mul_lt_mul_right h1
  obtain ⟨hrL, hrU⟩ := roundHalfEven_bounds (a * 2 ^ 52 * 2 ^ s) 4278419646001971 hM
  have hXeq : a * 2 ^ 52 * 2 ^ s = a * 2 ^ s * 2 ^ 52 := by ring
  rw [hXeq] at hrL hrU
  rw [hXeq]
  have h20 : 20 * (a * 2 ^ s) ≤ 19 * (N * 2 ^ s) := by
    calc 20 * (a * 2 ^ s) = (20 * a) * 2 ^ s := by ring
    _ ≤ (19 * N) * 2 ^ s := Nat.mul_le_mul_right _ hN20
    _ = 19 * (N * 2 ^ s) := by ring
  have h19 : 19 * (N * 2 ^ s) ≤ 20 * (a * 2 ^ s) + 18 * 2 ^ s := by
    calc 19 * (N * 2 ^ s) = (19 * N) * 2 ^ s := by ring
    _ ≤ (20 * a + 18) * 2 ^ s := Nat.mul_le_mul_right _ hN19
    _ = 20 * (a * 2 ^ s) + 18 * 2 ^ s := by ring
  have hBP : 2 ^ s ≤ N * 2 ^ s := Nat.le_mul_of_pos_left _ hN1
  have hsubB : (N - 1) * 2 ^ s = N * 2 ^ s - 2 ^ s := by rw [Nat.sub_mul, one_mul]
  refine ceil_step_eq hN1 ?_ ?_
  · rw [hsubB]
    generalize roundHalfEven (a * 2 ^ s * 2 ^ 52) 4278419646001971 = m at hrL hrU ⊢
    generalize a * 2 ^ s = A at hrL hrU hkey h20 h19
    generalize N * 2 ^ s = B at h20 h19 hBP ⊢
    generalize (2:ℕ) ^ s = P at h19 hBP hP16 ⊢
    omega
  · generalize roundHalfEven (a * 2 ^ s * 2 ^ 52) 4278419646001971 = m at hrL hrU ⊢
    generalize a * 2 ^ s = A at hrL hrU hkey h20
    generalize N * 2 ^ s = B at h20 ⊢
    omega

/-- The shape of the 200 quote response for a supported symbol with an
in-bounds amount. -/
lemma quote_ok (sym : String) (info : TokenInfo) (a : ℕ)
    (htok : jsToUpperCase sym = sym)
    (hl : SUPPORTED_TOKENS.lookup sym = some info)
    (hmin : info.minAmount ≤ a) (hmax : a ≤ info.maxAmount) :
    quoteHandler (some sym) (some a) =
      (200, .jobj [("token", .jstr sym),
                   ("tokenName", .jstr info.name),
                   ("requestedAmount", .jnum a),
                   ("stxCost", .jnum (jsMathCeilDiv a info.rateM info.rateE)),
                   ("rate", .jnum info.rateQ),
                   ("feePercent", .jnum (if sym = "STX" then 5 else 2))]) := by
  unfold quoteHandler
  simp only [Option.getD_some, htok, hl]
  rw [if_neg (by omega), if_neg (by omega)]

/-! ## The claims -/

/-- C3.  For every supported asset and every requested amount within the
asset's inclusive bounds, the quote's required payment — computed in the
source as `Math.ceil(amount / rate)` on IEEE-754 doubles — equals the
exact integer ceiling `ceil(requestedAmount / rate)` with the exact
rational rate, and is a positive integer; the 200 quote response carries
it in `stxCost`.  (In particular `STX`/`1000000` yields `1052632`, see
the witness.) -/
theorem quote_stxCost_exact_ceiling (sym : String) (info : TokenInfo) (a : ℕ)
    (hl : SUPPORTED_TOKENS.lookup sym = some info)
    (hmin : info.minAmount ≤ a) (hmax : a ≤ info.maxAmount) :
    jsMathCeilDiv a info.rateM info.rateE = specRequiredPayment sym a ∧
    0 < specRequiredPayment sym a ∧
    (quoteHandler (some sym) (some a)).1 = 200 ∧
    (quoteHandler (some sym) (some a)).2.field "stxCost" =
      some (.jnum (specRequiredPayment sym a)) := by
  have hsym : sym = "STX" ∨ sym = "SBTC" ∨ sym = "USDC" := by
    by_cases h1 : sym = "STX"
    · exact Or.inl h1
    by_cases h2 : sym = "SBTC"
    · exact Or.inr (Or.inl h2)
    by_cases h3 : sym = "USDC"
    · exact Or.inr (Or.inr h3)
    · exfalso
      have e1 : (sym == "STX") = false := beq_eq_false_iff_ne.mpr h1
      have e2 : (sym == "SBTC") = false := beq_eq_false_iff_ne.mpr h2
      have e3 : (sym == "USDC") = false := beq_eq_false_iff_ne.mpr h3
      simp [SUPPORTED_TOKENS, List.lookup, e1, e2, e3] at hl
  obtain ⟨nm, rM, rE, mn, mx⟩ := info
  rcases hsym with rfl | rfl | rfl
  · obtain ⟨rfl, rfl, rfl, rfl, rfl⟩ :
        nm = "Stacks" ∧ rM = 4278419646001971 ∧ rE = 52 ∧
          mn = 1000000 ∧ mx = 100000000 := by
      simpa [SUPPORTED_TOKENS, List.lookup] using hl.symm
    simp only at hmin hmax
    have hcost : jsMathCeilDiv a 4278419646001971 52 = specRequiredPayment "STX" a :=
      stx_cost_exact a (by omega) hmax
    refine ⟨hcost, ?_, ?_, ?_⟩
    · show 0 < (a * 20 + 18) / 19
      exact Nat.div_pos (by omega) (by norm_num)
    · rw [quote_ok "STX" _ a rfl hl hmin hmax]
    · rw [quote_ok "STX" _ a rfl hl hmin hmax]
      simp [Json.field, List.lookup, hcost]
  · obtain ⟨rfl, rfl, rfl, rfl, rfl⟩ :
        nm = "sBTC" ∧ rM = 5902958103587057 ∧ rE = 70 ∧
          mn = 1000 ∧ mx = 10000000 := by
      simpa [SUPPORTED_TOKENS, List.lookup] using hl.symm
    simp only at hmin hmax
    have hspec : specRequiredPayment "SBTC" a = 200000 * a := by
      show (a * 200000 + (1 - 1)) / 1 = 200000 * a
      simp [Nat.mul_comm]
    have hcost : jsMathCeilDiv a 5902958103587057 70 = specRequiredPayment "SBTC" a := by
      rw [hspec]; exact sbtc_cost_exact a (by omega) hmax
    refine ⟨hcost, ?_, ?_, ?_⟩
    · rw [hspec]; omega
    · rw [quote_ok "SBTC" _ a rfl hl hmin hmax]
    · rw [quote_ok "SBTC" _ a rfl hl hmin hmax]
      simp [Json.field, List.lookup, hcost]
  · obtain ⟨rfl, rfl, rfl, rfl, rfl⟩ :
        nm = "USDC" ∧ rM = 1 ∧ rE = 1 ∧ mn = 100000 ∧ mx = 50000000 := by
      simpa [SUPPORTED_TOKENS, List.lookup] using hl.symm
    simp only at hmin hmax
    have hspec : specRequiredPayment "USDC" a = 2 * a := by
      show (a * 2 + (1 - 1)) / 1 = 2 * a
      simp [Nat.mul_comm]
    have hcost : jsMathCeilDiv a 1 1 = specRequiredPayment "USDC" a := by
      rw [hspec]; exact usdc_cost_exact a
    refine ⟨hcost, ?_, ?_, ?_⟩
    · rw [hspec]; omega
    · rw [quote_ok "USDC" _ a rfl hl hmin hmax]
    · rw [quote_ok "USDC" _ a rfl hl hmin hmax]
      simp [Json.field, List.lookup, hcost]

/-- C3 witness: scenario A — `GET /quote?token=STX&amount=1000000` at
rate `0.95` prices the refill at exactly `1052632 = ceil(1000000/0.95)`. -/
theorem quote_stxCost_exact_ceiling_witness :
    (quoteHandler (some "STX") (some 1000000)).2.field "stxCost" =
      some (.jnum 1052632) := by
  have h := (quote_stxCost_exact_ceiling "STX"
    ⟨"Stacks", 4278419646001971, 52, 1000000, 100000000⟩ 1000000
    rfl (by norm_num) (by norm_num)).2.2.2
  rw [h]
  norm_num [specRequiredPayment, specRate]

/-- C7.  For every supported asset, the quote endpoint accepts the exact
bounds (`minAmount`, `maxAmount` → 200) and rejects one unit outside
them (`minAmount - 1` → 400 "Minimum amount is …", `maxAmount + 1` →
400 "Maximum amount is …"). -/
theorem quote_boundary_behavior :
    ((quoteHandler (some "STX") (some 1000000)).1 = 200 ∧
     (quoteHandler (some "STX") (some 100000000)).1 = 200 ∧
     (quoteHandler (some "STX") (some 999999)).1 = 400 ∧
     (quoteHandler (some "STX") (some 999999)).2.field "error" =
       some (.jstr "Minimum amount is 1000000") ∧
     (quoteHandler (some "STX") (some 100000001)).1 = 400 ∧
     (quoteHandler (some "STX") (some 100000001)).2.field "error" =
       some (.jstr "Maximum amount is 100000000")) ∧
    ((quoteHandler (some "SBTC") (some 1000)).1 = 200 ∧
     (quoteHandler (some "SBTC") (some 10000000)).1 = 200 ∧
     (quoteHandler (some "SBTC") (some 999)).1 = 400 ∧
     (quoteHandler (some "SBTC") (some 999)).2.field "error" =
       some (.jstr "Minimum amount is 1000") ∧
     (quoteHandler (some "SBTC") (some 10000001)).1 = 400 ∧
     (quoteHandler (some "SBTC") (some 10000001)).2.field "error" =
       some (.jstr "Maximum amount is 10000000")) ∧
    ((quoteHandler (some "USDC") (some 100000)).1 = 200 ∧
     (quoteHandler (some "USDC") (some 50000000)).1 = 200 ∧
     (quoteHandler (some "USDC") (some 99999)).1 = 400 ∧
     (quoteHandler (some "USDC") (some 99999)).2.field "error" =
       some (.jstr "Minimum amount is 100000") ∧
     (quoteHandler (some "USDC") (some 50000001)).1 = 400 ∧
     (quoteHandler (some "USDC") (some 50000001)).2.field "error" =
       some (.jstr "Maximum amount is 50000000")) := by
  refine ⟨⟨?_, ?_, ?_, ?_, ?_, ?_⟩, ⟨?_, ?_, ?_, ?_, ?_, ?_⟩,
    ⟨?_, ?_, ?_, ?_, ?_, ?_⟩⟩ <;> rfl

/-- C8.  Asset lookup upper-cases the symbol before consulting the
table, so it is case-insensitive; any symbol whose upper-casing is not
in the table yields a 400 "Unsupported token" response listing the full
supported set. -/
theorem quote_unsupported_asset (s₁ s₂ : String) (a : ℕ)
    (hcase : jsToUpperCase s₁ = jsToUpperCase s₂) :
    quoteHandler (some s₁) (some a) = quoteHandler (some s₂) (some a) ∧
    (SUPPORTED_TOKENS.lookup (jsToUpperCase s₁) = none →
      quoteHandler (some s₁) (some a) =
        (400, .jobj [("error", .jstr "Unsupported token"),
                     ("supported",
                       .jarr [.jstr "STX", .jstr "SBTC", .jstr "USDC"])])) := by
  constructor
  · unfold quoteHandler
    simp only [Option.getD_some, hcase]
  · intro hnone
    unfold quoteHandler
    simp only [Option.getD_some, hnone]
    rfl

/-- C8 witness: `token=doge` (any case) is unsupported and the error
body lists the supported set. -/
theorem quote_unsupported_asset_witness :
    quoteHandler (some "doge") (some 5) = quoteHandler (some "dOgE") (some 5) ∧
    quoteHandler (some "doge") (some 5) =
      (400, .jobj [("error", .jstr "Unsupported token"),
                   ("supported",
                     .jarr [.jstr "STX", .jstr "SBTC", .jstr "USDC"])]) := by
  have h := quote_unsupported_asset "doge" "dOgE" 5 rfl
  exact ⟨h.1, h.2 rfl⟩

/-- C4.  For a submission that parses as a plain transfer (with a
parseable recipient) and whose broadcast the ledger accepts,
verification against required minimum `m` succeeds exactly when the
transferred amount is at least `m` — a minimum check, not an exact
match, so overpayment is accepted — and any amount below `m` is
rejected with the insufficient-payment reason. -/
theorem verify_minimum_not_exact_match
    (de : String → Except String StacksTx) (bc : StacksTx → BroadcastResult)
    (raw exp : String) (m : ℕ) (tx : StacksTx) (r txid : String)
    (hde : de raw = .ok tx) (hpt : tx.payload.payloadType = 0)
    (hrec : tx.payload.recipientAddress = some r)
    (hbc : bc tx = .ok txid) :
    ((verifyAndBroadcastPayment de bc raw exp m).result.success = true ↔
      m ≤ tx.payload.amount) ∧
    (tx.payload.amount < m →
      (verifyAndBroadcastPayment de bc raw exp m).result.error =
        some s!"Insufficient payment: got {tx.payload.amount}, need {m}") := by
  unfold verifyAndBroadcastPayment
  rw [hde]
  simp only [hpt, hrec, ne_eq, not_true_eq_false, if_false]
  by_cases ha : tx.payload.amount < m
  · simp [ha, Nat.not_le.mpr ha]
  · simp [ha, Nat.not_lt.mp ha, hbc]

/-- C4 witness: at minimum 50, an exact-match transfer of 50 is
accepted, a transfer of 49 is rejected as insufficient, and an
overpayment of 51 is accepted. -/
theorem verify_minimum_not_exact_match_witness :
    (verifyAndBroadcastPayment (fun _ => .ok ⟨⟨0, some "SPX", 50⟩⟩)
      (fun _ => .ok "t1") "raw" "SPSVC" 50).result.success = true ∧
    (verifyAndBroadcastPayment (fun _ => .ok ⟨⟨0, some "SPX", 49⟩⟩)
      (fun _ => .ok "t1") "raw" "SPSVC" 50).result.error =
      some "Insufficient payment: got 49, need 50" ∧
    (verifyAndBroadcastPayment (fun _ => .ok ⟨⟨0, some "SPX", 51⟩⟩)
      (fun _ => .ok "t1") "raw" "SPSVC" 50).result.success = true := by
  refine ⟨?_, ?_, ?_⟩
  · exact (verify_minimum_not_exact_match _ _ "raw" "SPSVC" 50
      ⟨⟨0, some "SPX", 50⟩⟩ "SPX" "t1" rfl rfl rfl rfl).1.mpr (by norm_num)
  · exact (verify_minimum_not_exact_match _ _ "raw" "SPSVC" 50
      ⟨⟨0, some "SPX", 49⟩⟩ "SPX" "t1" rfl rfl rfl rfl).2 (by norm_num)
  · exact (verify_minimum_not_exact_match _ _ "raw" "SPSVC" 50
      ⟨⟨0, some "SPX", 51⟩⟩ "SPX" "t1" rfl rfl rfl rfl).1.mpr (by norm_num)

/-- C5.  A submission that parses but whose payload type is not a plain
transfer (type 0) is rejected with the wrong-payload reason regardless
of its amount — the result is a constant independent of the amount and
of the broadcast oracle — and nothing is submitted for broadcast. -/
theorem verify_wrong_payload_short_circuits
    (de : String → Except String StacksTx) (bc : StacksTx → BroadcastResult)
    (raw exp : String) (m : ℕ) (tx : StacksTx)
    (hde : de raw = .ok tx) (hpt : tx.payload.payloadType ≠ 0) :
    (verifyAndBroadcastPayment de bc raw exp m).result =
      ⟨false, none, some "Transaction is not a STX transfer", none⟩ ∧
    (verifyAndBroadcastPayment de bc raw exp m).broadcasts = [] := by
  unfold verifyAndBroadcastPayment
  rw [hde]
  simp [hpt]

/-- C5 witness: a contract-call-style payload (type 2) with a huge
amount is rejected with the wrong-payload reason and no broadcast
occurs. -/
theorem verify_wrong_payload_short_circuits_witness :
    (verifyAndBroadcastPayment (fun _ => .ok ⟨⟨2, some "SPX", 999999999⟩⟩)
      (fun _ => .ok "t1") "raw" "SPSVC" 1).result =
      ⟨false, none, some "Transaction is not a STX transfer", none⟩ ∧
    (verifyAndBroadcastPayment (fun _ => .ok ⟨⟨2, some "SPX", 999999999⟩⟩)
      (fun _ => .ok "t1") "raw" "SPSVC" 1).broadcasts = [] :=
  verify_wrong_payload_short_circuits _ _ "raw" "SPSVC" 1
    ⟨⟨2, some "SPX", 999999999⟩⟩ rfl (by norm_num)

/-- C6 (implicit hyperproperty).  The verification decision is
independent of the `expectedRecipient` argument and of the
transaction's recipient value: two parseable transfer submissions that
differ only in their recipient address (under any two
`expectedRecipient` values) receive the same accept/reject decision,
and a transfer addressed to any recipient at all is accepted whenever
its amount meets the minimum and the ledger accepts the broadcast. -/
theorem verify_recipient_never_checked
    (de₁ de₂ : String → Except String StacksTx)
    (bc₁ bc₂ : StacksTx → BroadcastResult)
    (raw e₁ e₂ : String) (m pt a : ℕ) (r₁ r₂ : String)
    (hde₁ : de₁ raw = .ok ⟨⟨pt, some r₁, a⟩⟩)
    (hde₂ : de₂ raw = .ok ⟨⟨pt, some r₂, a⟩⟩)
    (hbc : bc₁ ⟨⟨pt, some r₁, a⟩⟩ = bc₂ ⟨⟨pt, some r₂, a⟩⟩) :
    ((verifyAndBroadcastPayment de₁ bc₁ raw e₁ m).result.success =
      (verifyAndBroadcastPayment de₂ bc₂ raw e₂ m).result.success) ∧
    (∀ t, pt = 0 → m ≤ a → bc₁ ⟨⟨pt, some r₁, a⟩⟩ = .ok t →
      (verifyAndBroadcastPayment de₁ bc₁ raw e₁ m).result.success = true) := by
  constructor
  · unfold verifyAndBroadcastPayment
    rw [hde₁, hde₂]
    by_cases hpt : pt = 0
    · subst hpt
      by_cases ha : a < m
      · simp [ha]
      · simp only [ha]
        norm_num
        rw [hbc]
        rcases bc₂ ⟨⟨0, some r₂, a⟩⟩ with e | t <;> rfl
    · simp [hpt]
  · intro t hpt ha hbc₁
    subst hpt
    unfold verifyAndBroadcastPayment
    rw [hde₁]
    simp [Nat.not_lt.mpr ha, hbc₁]

/-- C6 witness: the same transfer addressed to two unrelated recipients
(neither the service's payment address) verifies identically, and is
accepted for an arbitrary recipient. -/
theorem verify_recipient_never_checked_witness :
    ((verifyAndBroadcastPayment (fun _ => .ok ⟨⟨0, some "SPALICE", 70⟩⟩)
        (fun _ => .ok "t1") "raw" "SPSVC1" 70).result.success =
      (verifyAndBroadcastPayment (fun _ => .ok ⟨⟨0, some "SPBOB", 70⟩⟩)
        (fun _ => .ok "t1") "raw" "SPSVC2" 70).result.success) ∧
    (verifyAndBroadcastPayment (fun _ => .ok ⟨⟨0, some "SPALICE", 70⟩⟩)
      (fun _ => .ok "t1") "raw" "SPSVC1" 70).result.success = true := by
  have h := verify_recipient_never_checked
    (fun _ => .ok ⟨⟨0, some "SPALICE", 70⟩⟩) (fun _ => .ok ⟨⟨0, some "SPBOB", 70⟩⟩)
    (fun _ => .ok "t1") (fun _ => .ok "t1")
    "raw" "SPSVC1" "SPSVC2" 70 0 70 "SPALICE" "SPBOB" rfl rfl rfl
  exact ⟨h.1, h.2 "t1" rfl (by norm_num) rfl⟩

/-- C10.  For every input — including ones whose deserialisation throws
— the verifier returns a structured result rather than raising: the
txid and verified amount are present iff it accepted, the failure
reason is present iff it rejected, and at most one broadcast is
submitted per call (no retry inside the component). -/
theorem verify_total_result_shape
    (de : String → Except String StacksTx) (bc : StacksTx → BroadcastResult)
    (raw exp : String) (m : ℕ) :
    ((verifyAndBroadcastPayment de bc raw exp m).result.success = true ↔
      (verifyAndBroadcastPayment de bc raw exp m).result.txid.isSome) ∧
    ((verifyAndBroadcastPayment de bc raw exp m).result.success = true ↔
      (verifyAndBroadcastPayment de bc raw exp m).result.amount.isSome) ∧
    ((verifyAndBroadcastPayment de bc raw exp m).result.success = false ↔
      (verifyAndBroadcastPayment de bc raw exp m).result.error.isSome) ∧
    (verifyAndBroadcastPayment de bc raw exp m).broadcasts.length ≤ 1 := by
  unfold verifyAndBroadcastPayment
  rcases de raw with msg | tx
  · simp
  · by_cases hpt : tx.payload.payloadType ≠ 0
    · simp [hpt]
    · simp only [hpt, if_false]
      rcases hra : tx.payload.recipientAddress with _ | r
      · simp
      · by_cases ha : tx.payload.amount < m
        · simp [ha]
        · simp only [ha, if_false]
          rcases bc tx with e | t <;> simp

/-- The verifier's output on the full success path. -/
lemma verify_success_eq
    (de : String → Except String StacksTx) (bc : StacksTx → BroadcastResult)
    (raw exp : String) (m : ℕ) (tx : StacksTx) (r txid : String)
    (hde : de raw = .ok tx) (hpt : tx.payload.payloadType = 0)
    (hrec : tx.payload.recipientAddress = some r)
    (hamt : ¬(tx.payload.amount < m)) (hbc : bc tx = .ok txid) :
    verifyAndBroadcastPayment de bc raw exp m =
      ⟨⟨true, some txid, none, some tx.payload.amount⟩, [tx]⟩ := by
  unfold verifyAndBroadcastPayment
  rw [hde]
  simp [hpt, hrec, hamt, hbc]

/-- C1 (corrected).  The worker's configuration carries no funding
credential at all (`Env` is just `PAYMENT_ADDRESS`) and the `/refill`
handler has no service-unavailable gate: no response path carries
status 503, and whenever a payment submission accompanies a request
that passes input validation, payment verification (with its ledger
broadcast) is invoked — its trace is exactly the request's broadcast
trace and the response status is 200 or 402 according to its outcome. -/
theorem refill_no_funding_gate
    (env : Env) (ph : Option String) (body : RefillBody)
    (de : String → Except String StacksTx) (bc : StacksTx → BroadcastResult)
    (nonce expiresAt refillId : String) :
    (refillHandler env ph body de bc nonce expiresAt refillId).1 ≠ 503 ∧
    (∀ raw info, ph = some raw →
      jsTruthyStr body.recipient = true →
      SUPPORTED_TOKENS.lookup (jsToUpperCase (body.token.getD "STX")) = some info →
      ¬(body.amount.getD 1000000 < info.minAmount) →
      ¬(info.maxAmount < body.amount.getD 1000000) →
      (refillHandler env ph body de bc nonce expiresAt refillId).2.2 =
        (verifyAndBroadcastPayment de bc raw env.PAYMENT_ADDRESS
          (jsMathCeilDiv (body.amount.getD 1000000) info.rateM info.rateE)).broadcasts ∧
      ((refillHandler env ph body de bc nonce expiresAt refillId).1 = 200 ∨
        (refillHandler env ph body de bc nonce expiresAt refillId).1 = 402)) := by
  constructor
  · unfold refillHandler
    dsimp only
    split
    · norm_num
    · split
      · norm_num
      · split
        · norm_num
        · split
          · norm_num
          · split
            · norm_num
            · norm_num
  · intro raw info hph htr hlook hmin hmax
    subst hph
    unfold refillHandler
    dsimp only
    simp only [htr, hlook, decide_eq_false hmin, decide_eq_false hmax,
      Bool.not_true, Bool.or_self, Bool.false_eq_true, if_false]
    cases hv : (verifyAndBroadcastPayment de bc raw env.PAYMENT_ADDRESS
        (jsMathCeilDiv (body.amount.getD 1000000) info.rateM info.rateE)).result.success <;>
      simp [hv]

/-- C1 witness: a fully valid paid request on a concrete environment
goes through verification (one broadcast) and returns 200. -/
theorem refill_no_funding_gate_witness :
    (refillHandler ⟨"SPSVC"⟩ (some "rawtx")
        ⟨some "STX", some 1000000, some "SPME"⟩
        (fun _ => .ok ⟨⟨0, some "SPDEST", 1052632⟩⟩) (fun _ => .ok "ptxid")
        "n1" "e1" "r1").2.2 = [⟨⟨0, some "SPDEST", 1052632⟩⟩] ∧
    ((refillHandler ⟨"SPSVC"⟩ (some "rawtx")
        ⟨some "STX", some 1000000, some "SPME"⟩
        (fun _ => .ok ⟨⟨0, some "SPDEST", 1052632⟩⟩) (fun _ => .ok "ptxid")
        "n1" "e1" "r1").1 = 200 ∨
      (refillHandler ⟨"SPSVC"⟩ (some "rawtx")
        ⟨some "STX", some 1000000, some "SPME"⟩
        (fun _ => .ok ⟨⟨0, some "SPDEST", 1052632⟩⟩) (fun _ => .ok "ptxid")
        "n1" "e1" "r1").1 = 402) := by
  have h := (refill_no_funding_gate ⟨"SPSVC"⟩ (some "rawtx")
    ⟨some "STX", some 1000000, some "SPME"⟩
    (fun _ => .ok ⟨⟨0, some "SPDEST", 1052632⟩⟩) (fun _ => .ok "ptxid")
    "n1" "e1" "r1").2 "rawtx"
    ⟨"Stacks", 4278419646001971, 52, 1000000, 100000000⟩
    rfl rfl rfl (by norm_num) (by norm_num)
  exact ⟨h.1.trans (by decide), h.2⟩

/-- C1 counterexample.  The claim requires a 503 before verification
whenever the funding credential is absent; but the source's `Env` has no
funding credential (only `PAYMENT_ADDRESS`), and on a valid paid
request the handler still verifies and broadcasts the payment and
answers 200 — no 503-equivalent response exists. -/
theorem refill_no_funding_gate_counterexample :
    (refillHandler ⟨"SPSVC"⟩ (some "rawtx")
        ⟨some "STX", some 1000000, some "SPME"⟩
        (fun _ => .ok ⟨⟨0, some "SPDEST", 1052632⟩⟩) (fun _ => .ok "ptxid")
        "n1" "e1" "r1").1 = 200 ∧
    (refillHandler ⟨"SPSVC"⟩ (some "rawtx")
        ⟨some "STX", some 1000000, some "SPME"⟩
        (fun _ => .ok ⟨⟨0, some "SPDEST", 1052632⟩⟩) (fun _ => .ok "ptxid")
        "n1" "e1" "r1").2.2 = [⟨⟨0, some "SPDEST", 1052632⟩⟩] :=
  ⟨by decide, by decide⟩

/-- C2 (corrected).  When the payment leg fully succeeds (parse, type,
amount, broadcast), the 200 response carries the payment txid and
verified amount under `payment`, but there is no refill transaction at
all: the body has no `refill` key (hence no refill txid), the refill is
merely reported as `status: "queued"` with the echoed request details. -/
theorem refill_success_payment_txid_no_refill_leg
    (env : Env) (body : RefillBody)
    (de : String → Except String StacksTx) (bc : StacksTx → BroadcastResult)
    (nonce expiresAt refillId raw : String) (info : TokenInfo) (tx : StacksTx)
    (r rcpt txid : String)
    (htr : body.recipient = some r) (hr : r ≠ "")
    (hlook : SUPPORTED_TOKENS.lookup (jsToUpperCase (body.token.getD "STX")) = some info)
    (hmin : ¬(body.amount.getD 1000000 < info.minAmount))
    (hmax : ¬(info.maxAmount < body.amount.getD 1000000))
    (hde : de raw = .ok tx) (hpt : tx.payload.payloadType = 0)
    (hrec : tx.payload.recipientAddress = some rcpt)
    (hamt : ¬(tx.payload.amount <
      jsMathCeilDiv (body.amount.getD 1000000) info.rateM info.rateE))
    (hbc : bc tx = .ok txid) :
    refillHandler env (some raw) body de bc nonce expiresAt refillId =
      (200, .jobj
        [("success", .jbool true),
         ("refillId", .jstr refillId),
         ("status", .jstr "queued"),
         ("payment", .jobj [("txid", .jstr txid),
                            ("amount", .jnum tx.payload.amount),
                            ("verified", .jbool true)]),
         ("details", .jobj [("token", .jstr (jsToUpperCase (body.token.getD "STX"))),
                            ("amount", .jnum (body.amount.getD 1000000)),
                            ("recipient", .jstr r),
                            ("estimatedDelivery", .jstr "~10 minutes")]),
         ("message", .jstr ("Refill of " ++ toString (body.amount.getD 1000000) ++
           " " ++ jsToUpperCase (body.token.getD "STX") ++ " queued for " ++ r))],
       [tx]) ∧
    (refillHandler env (some raw) body de bc nonce expiresAt refillId).2.1.field
      "refill" = none := by
  have hre : r.isEmpty = false :=
    Bool.eq_false_iff.mpr (fun hc => hr ((String.isEmpty_iff r).mp hc))
  have htr2 : jsTruthyStr body.recipient = true := by
    rw [htr]
    simp [jsTruthyStr, hre]
  have htr3 : jsTruthyStr (some r) = true := by simp [jsTruthyStr, hre]
  have hv := verify_success_eq de bc raw env.PAYMENT_ADDRESS
    (jsMathCeilDiv (body.amount.getD 1000000) info.rateM info.rateE)
    tx rcpt txid hde hpt hrec hamt hbc
  have heq : refillHandler env (some raw) body de bc nonce expiresAt refillId =
      (200, .jobj
        [("success", .jbool true),
         ("refillId", .jstr refillId),
         ("status", .jstr "queued"),
         ("payment", .jobj [("txid", .jstr txid),
                            ("amount", .jnum tx.payload.amount),
                            ("verified", .jbool true)]),
         ("details", .jobj [("token", .jstr (jsToUpperCase (body.token.getD "STX"))),
                            ("amount", .jnum (body.amount.getD 1000000)),
                            ("recipient", .jstr r),
                            ("estimatedDelivery", .jstr "~10 minutes")]),
         ("message", .jstr ("Refill of " ++ toString (body.amount.getD 1000000) ++
           " " ++ jsToUpperCase (body.token.getD "STX") ++ " queued for " ++ r))],
       [tx]) := by
    unfold refillHandler
    dsimp only
    simp only [htr2, htr3, hlook, decide_eq_false hmin, decide_eq_false hmax,
      Bool.not_true, Bool.or_self, Bool.false_eq_true, if_false, hv, htr]
    simp [Option.getD, toString]
  exact ⟨heq, by rw [heq]; rfl⟩

/-- C2 witness: a fully successful USDC refill request returns 200, the
payment txid, and no refill key. -/
theorem refill_success_payment_txid_no_refill_leg_witness :
    (refillHandler ⟨"SPSVC2"⟩ (some "raw2")
        ⟨some "usdc", some 100000, some "SPW"⟩
        (fun _ => .ok ⟨⟨0, some "SPQ", 200000⟩⟩) (fun _ => .ok "ptx2")
        "n2" "e2" "rid2").1 = 200 ∧
    (refillHandler ⟨"SPSVC2"⟩ (some "raw2")
        ⟨some "usdc", some 100000, some "SPW"⟩
        (fun _ => .ok ⟨⟨0, some "SPQ", 200000⟩⟩) (fun _ => .ok "ptx2")
        "n2" "e2" "rid2").2.1.field "refill" = none := by
  have h := refill_success_payment_txid_no_refill_leg ⟨"SPSVC2"⟩
    ⟨some "usdc", some 100000, some "SPW"⟩
    (fun _ => .ok ⟨⟨0, some "SPQ", 200000⟩⟩) (fun _ => .ok "ptx2")
    "n2" "e2" "rid2" "raw2" ⟨"USDC", 1, 1, 100000, 50000000⟩
    ⟨⟨0, some "SPQ", 200000⟩⟩ "SPW" "SPQ" "ptx2"
    rfl (by decide) rfl (by decide) (by decide) rfl rfl rfl (by decide) rfl
  exact ⟨by rw [h.1], h.2⟩

/-- C2 counterexample.  The claim requires the 200 body to carry a
refill txid under `refill`; on a fully successful paid request the 200
body has a `payment` object with the payment txid but no `refill` key
at all. -/
theorem refill_success_lacks_refill_txid_counterexample :
    (refillHandler ⟨"SPSVC3"⟩ (some "raw3")
        ⟨some "STX", some 1000000, some "SPME3"⟩
        (fun _ => .ok ⟨⟨0, some "SPD3", 1052632⟩⟩) (fun _ => .ok "ptx3")
        "n3" "e3" "rid3").1 = 200 ∧
    (refillHandler ⟨"SPSVC3"⟩ (some "raw3")
        ⟨some "STX", some 1000000, some "SPME3"⟩
        (fun _ => .ok ⟨⟨0, some "SPD3", 1052632⟩⟩) (fun _ => .ok "ptx3")
        "n3" "e3" "rid3").2.1.field "payment" =
      some (.jobj [("txid", .jstr "ptx3"), ("amount", .jnum 1052632),
                   ("verified", .jbool true)]) ∧
    (refillHandler ⟨"SPSVC3"⟩ (some "raw3")
        ⟨some "STX", some 1000000, some "SPME3"⟩
        (fun _ => .ok ⟨⟨0, some "SPD3", 1052632⟩⟩) (fun _ => .ok "ptx3")
        "n3" "e3" "rid3").2.1.field "refill" = none :=
  ⟨rfl, rfl, rfl⟩

/-- C9 (corrected).  Input validation checks only that a recipient is
present and nonempty (JS truthiness): a missing or empty
recipientAddress yields the 400 "recipient address required" response
with no side effects, while ANY nonempty string — whether or not it
satisfies the ledger's address-format predicate — passes the recipient
check, and with a supported asset and in-bounds amount an unpaid
request receives a 402 challenge.  No address-format validation exists. -/
theorem refill_recipient_truthiness_only
    (env : Env) (ph : Option String) (body : RefillBody)
    (de : String → Except String StacksTx) (bc : StacksTx → BroadcastResult)
    (nonce expiresAt refillId : String) :
    (jsTruthyStr body.recipient = false →
      refillHandler env ph body de bc nonce expiresAt refillId =
        (400, .jobj [("error", .jstr "recipient address required")], [])) ∧
    (∀ r info, body.recipient = some r → r ≠ "" →
      SUPPORTED_TOKENS.lookup (jsToUpperCase (body.token.getD "STX")) = some info →
      ¬(body.amount.getD 1000000 < info.minAmount) →
      ¬(info.maxAmount < body.amount.getD 1000000) →
      (refillHandler env none body de bc nonce expiresAt refillId).1 = 402) := by
  constructor
  · intro hf
    unfold refillHandler
    dsimp only
    rw [hf]
    rfl
  · intro r info htr hr hlook hmin hmax
    have hre : r.isEmpty = false :=
      Bool.eq_false_iff.mpr (fun hc => hr ((String.isEmpty_iff r).mp hc))
    have htr2 : jsTruthyStr body.recipient = true := by
      rw [htr]
      simp [jsTruthyStr, hre]
    unfold refillHandler
    dsimp only
    simp only [htr2, hlook, decide_eq_false hmin, decide_eq_false hmax,
      Bool.not_true, Bool.or_self, Bool.false_eq_true, if_false]

/-- C9 witness: a request with no recipient is rejected 400; a request
whose recipient is the (format-invalid) string `"x"` passes validation
and receives a 402 challenge. -/
theorem refill_recipient_truthiness_only_witness :
    refillHandler ⟨"SPSVC"⟩ none ⟨some "STX", some 1000000, none⟩
        (fun _ => .error "unused") (fun _ => .err "unused") "n4" "e4" "rid4" =
      (400, .jobj [("error", .jstr "recipient address required")], []) ∧
    (refillHandler ⟨"SPSVC"⟩ none ⟨some "STX", some 1000000, some "x"⟩
        (fun _ => .error "unused") (fun _ => .err "unused") "n4" "e4" "rid4").1 =
      402 := by
  constructor
  · exact (refill_recipient_truthiness_only ⟨"SPSVC"⟩ none
      ⟨some "STX", some 1000000, none⟩
      (fun _ => .error "unused") (fun _ => .err "unused") "n4" "e4" "rid4").1 rfl
  · exact (refill_recipient_truthiness_only ⟨"SPSVC"⟩ none
      ⟨some "STX", some 1000000, some "x"⟩
      (fun _ => .error "unused") (fun _ => .err "unused") "n4" "e4" "rid4").2
      "x" ⟨"Stacks", 4278419646001971, 52, 1000000, 100000000⟩
      rfl (by decide) rfl (by decide) (by decide)

/-- C9 counterexample.  `"x"` does not satisfy the (spec-modelled)
mainnet address-format predicate, yet the handler does not reject it:
the unpaid request gets a 402 challenge (body has `maxAmountRequired`
and no `error`), so format-invalid recipients are not rejected before a
challenge is issued. -/
theorem refill_no_address_format_check_counterexample :
    isValidStacksAddress "x" = false ∧
    (refillHandler ⟨"SPSVC"⟩ none ⟨some "STX", some 1000000, some "x"⟩
        (fun _ => .error "unused") (fun _ => .err "unused") "n5" "e5" "rid5").1 =
      402 ∧
    (refillHandler ⟨"SPSVC"⟩ none ⟨some "STX", some 1000000, some "x"⟩
        (fun _ => .error "unused") (fun _ => .err "unused") "n5" "e5" "rid5").2.1.field
      "error" = none ∧
    (refillHandler ⟨"SPSVC"⟩ none ⟨some "STX", some 1000000, some "x"⟩
        (fun _ => .error "unused") (fun _ => .err "unused") "n5" "e5" "rid5").2.1.field
      "maxAmountRequired" = some (.jstr "1052632") :=
  ⟨by decide, rfl, rfl, rfl⟩

end CoinRefill
